import Mathlib

/-!
Verification development for the MRMS weather-radar backend
(`backend/real_mrms_processor.py` and `backend/mrms_service.py`).

The Python code is shallowly embedded: Python floats are modelled by `ℚ`,
Python strings by Lean `String` processed through their character lists,
`random.uniform` draws by an explicit stream `ℕ → ℚ` of `random()` outputs,
`math.sin` / `math.cos` by explicit function parameters, raised exceptions by
`Except String`, and the network by an explicit probe function
`String → Option ℕ` returning the HTTP status of a HEAD request (or `none`
for a network error).
-/

deriving instance DecidableEq for Except

/-! ### Python primitives: digits, `int()`, string slicing, `split`, `replace`, `round` -/

/-- The decimal digit character for `d` (`d < 10`). -/
def digitChar (d : ℕ) : Char :=
  if d = 0 then '0' else if d = 1 then '1' else if d = 2 then '2'
  else if d = 3 then '3' else if d = 4 then '4' else if d = 5 then '5'
  else if d = 6 then '6' else if d = 7 then '7' else if d = 8 then '8' else '9'

/-- Decimal digits of `n`, most significant first (fuel-based recursion). -/
def natDigitsAux : ℕ → ℕ → List Char
  | 0, _ => []
  | fuel + 1, n =>
      if n < 10 then [digitChar n]
      else natDigitsAux fuel (n / 10) ++ [digitChar (n % 10)]

/-- The decimal string of a natural number. -/
def natToStr (n : ℕ) : String := ⟨natDigitsAux (n + 1) n⟩

/-- Zero-pad to two characters, like `strftime` field `%M` (`%02d`). -/
def pad2 (n : ℕ) : String := if n < 10 then "0" ++ natToStr n else natToStr n

/-- Zero-pad to four characters, like `strftime` field `%Y`. -/
def pad4 (n : ℕ) : String :=
  if n < 10 then "000" ++ natToStr n
  else if n < 100 then "00" ++ natToStr n
  else if n < 1000 then "0" ++ natToStr n
  else natToStr n

/-- Whether a character is an ASCII decimal digit. -/
def isDigitCh (c : Char) : Bool := 48 ≤ c.toNat && c.toNat ≤ 57

/-- Numeric value of a digit list (most significant first). -/
def digitsToNat (l : List Char) : ℕ := l.foldl (fun n c => n * 10 + (c.toNat - 48)) 0

/-- Python `int(s)`: parses a non-empty all-digit string, raises `ValueError`
otherwise (the error carries the message of the raised exception). -/
def pyInt (s : String) : Except String ℕ :=
  if s.data ≠ [] ∧ s.data.all isDigitCh then Except.ok (digitsToNat s.data)
  else Except.error ("invalid literal for int() with base 10: " ++ s)

/-- Python slicing `s[a:b]` (for `0 ≤ a ≤ b`). -/
def sliceStr (s : String) (a b : ℕ) : String := ⟨(s.data.drop a).take (b - a)⟩

/-- Split a character list at `/`, like Python `s.split('/')`. -/
def splitSlashAux : List Char → List Char → List (List Char)
  | [], acc => [acc.reverse]
  | c :: rest, acc =>
      if c = '/' then acc.reverse :: splitSlashAux rest [] else splitSlashAux rest (c :: acc)

/-- Python `s.split('/')[-1]`: the last `/`-separated segment of a string
(the split of a string is never empty, so the default is unreachable). -/
def lastSegment (s : String) : String :=
  ⟨(splitSlashAux s.data []).getLastD []⟩

/-- Left-to-right non-overlapping removal of `pat`, like Python
`s.replace(pat, "")` (fuel-based recursion). -/
def stripAllAux (pat : List Char) : ℕ → List Char → List Char
  | 0, l => l
  | _ + 1, [] => []
  | fuel + 1, c :: rest =>
      if pat.isPrefixOf (c :: rest) then stripAllAux pat fuel ((c :: rest).drop pat.length)
      else c :: stripAllAux pat fuel rest

/-- Python `s.replace(pat, "")` for a non-empty pattern. -/
def stripAll (pat : String) (s : String) : String :=
  ⟨stripAllAux pat.data s.data.length s.data⟩

/-- Round half to even, as Python `round` does on exact values. -/
def roundHalfEven (x : ℚ) : ℤ :=
  let f := ⌊x⌋
  let frac := x - f
  if frac < 1 / 2 then f
  else if 1 / 2 < frac then f + 1
  else if f % 2 = 0 then f else f + 1

/-- Python `round(x, ndigits)` modelled on exact rationals. -/
def pyRound (x : ℚ) (ndigits : ℕ) : ℚ :=
  (roundHalfEven (x * 10 ^ ndigits) : ℚ) / 10 ^ ndigits

/-- CPython `random.uniform a b` applied to a `random()` draw `x`:
`a + (b - a) * x`. -/
def pyUniform (a b x : ℚ) : ℚ := a + (b - a) * x

/-- The exact rational value of the IEEE-754 double `math.pi`. -/
def mathPi : ℚ := 884279719003555 / 281474976710656

/-! ### Intensity classifier (`MRMSDataProcessor._get_intensity_level`) -/

/-- `_get_intensity_level` from `real_mrms_processor.py`. -/
def get_intensity_level (reflectivity : ℚ) : String :=
  if reflectivity ≥ 50 then "extreme"
  else if reflectivity ≥ 40 then "heavy"
  else if reflectivity ≥ 30 then "moderate"
  else if reflectivity ≥ 20 then "light"
  else "very light"

/-! ### Datetimes (`datetime.utcnow`, `replace`, `timedelta`, `strftime`) -/

/-- A Python naive `datetime` (microseconds are dropped; the code zeroes them
before any use). -/
structure DateTime where
  year : ℕ
  month : ℕ
  day : ℕ
  hour : ℕ
  minute : ℕ
  second : ℕ
deriving DecidableEq, Repr

/-- Gregorian leap-year rule used by Python's `datetime`. -/
def isLeap (y : ℕ) : Bool := (y % 4 == 0 && y % 100 != 0) || y % 400 == 0

/-- Days in a month of the proleptic Gregorian calendar. -/
def daysInMonth (y m : ℕ) : ℕ :=
  if m = 2 then (if isLeap y then 29 else 28)
  else if m = 4 ∨ m = 6 ∨ m = 9 ∨ m = 11 then 30
  else 31

/-- Subtract one minute, borrowing through hour, day, month and year. -/
def subOneMinute (dt : DateTime) : DateTime :=
  if dt.minute > 0 then { dt with minute := dt.minute - 1 }
  else if dt.hour > 0 then { dt with hour := dt.hour - 1, minute := 59 }
  else if dt.day > 1 then { dt with day := dt.day - 1, hour := 23, minute := 59 }
  else if dt.month > 1 then
    { dt with month := dt.month - 1, day := daysInMonth dt.year (dt.month - 1),
              hour := 23, minute := 59 }
  else
    { dt with year := dt.year - 1, month := 12, day := 31, hour := 23, minute := 59 }

/-- Subtract `n` minutes. -/
def subMinutes (dt : DateTime) : ℕ → DateTime
  | 0 => dt
  | n + 1 => subMinutes (subOneMinute dt) n

/-- Add one minute, carrying through hour, day, month and year. -/
def addOneMinute (dt : DateTime) : DateTime :=
  if dt.minute < 59 then { dt with minute := dt.minute + 1 }
  else if dt.hour < 23 then { dt with hour := dt.hour + 1, minute := 0 }
  else if dt.day < daysInMonth dt.year dt.month then
    { dt with day := dt.day + 1, hour := 0, minute := 0 }
  else if dt.month < 12 then { dt with month := dt.month + 1, day := 1, hour := 0, minute := 0 }
  else { dt with year := dt.year + 1, month := 1, day := 1, hour := 0, minute := 0 }

/-- Add `n` minutes. -/
def addMinutesNat (dt : DateTime) : ℕ → DateTime
  | 0 => dt
  | n + 1 => addMinutesNat (addOneMinute dt) n

/-- Python `dt + timedelta(minutes=off)` for a possibly negative offset. -/
def pyAddMinutes (dt : DateTime) (off : ℤ) : DateTime :=
  if off < 0 then subMinutes dt off.natAbs else addMinutesNat dt off.toNat

/-- `dt.strftime('%Y%m%d-%H%M00')` from `real_mrms_processor.py`. -/
def strftimeTs (dt : DateTime) : String :=
  pad4 dt.year ++ pad2 dt.month ++ pad2 dt.day ++ "-" ++ pad2 dt.hour ++ pad2 dt.minute ++ "00"

/-- The invariants Python's `datetime` guarantees for its fields. -/
def pyValidDate (dt : DateTime) : Bool :=
  1 ≤ dt.year && dt.year ≤ 9999 && 1 ≤ dt.month && dt.month ≤ 12 &&
  1 ≤ dt.day && dt.day ≤ 31 && dt.hour ≤ 23 && dt.minute ≤ 59 && dt.second ≤ 59

/-! ### Availability prober (`MRMSDataProcessor.get_latest_data_url`) -/

/-- `self.aws_base_url`. -/
def aws_base_url : String := "https://noaa-mrms-pds.s3.amazonaws.com"

/-- `self.ncep_base_url`. -/
def ncep_base_url : String := "https://mrms.ncep.noaa.gov/data/CONUS"

/-- `self.product`. -/
def mrms_product : String := "MRMS_ReflectivityAtLowestAltitude"

/-- The offsets (in minutes) the prober tries, newest first. -/
def probeOffsets : List ℤ := [0, -2, -4, -6, -8, -10, -12, -14, -16, -18, -20]

/-- The candidate timestamps built by `get_latest_data_url` from the current
UTC time: round down to the 2-minute boundary, zero the seconds, then format
each offset with `strftime('%Y%m%d-%H%M00')`. -/
def candidate_timestamps (now : DateTime) : List String :=
  let rounded_minutes := now.minute / 2 * 2
  let data_time := { now with minute := rounded_minutes, second := 0 }
  probeOffsets.map (fun off => strftimeTs (pyAddMinutes data_time off))

/-- The AWS S3 candidate URL: `f"{aws_base_url}/{product}/{timestamp}.grib2.gz"`. -/
def awsUrlOf (ts : String) : String :=
  aws_base_url ++ "/" ++ mrms_product ++ "/" ++ ts ++ ".grib2.gz"

/-- The NCEP candidate URL, rebuilt from slices of the timestamp:
`f"{ncep_base_url}/MRMS_ReflectivityAtLowestAltitude_00.50_{y}{m}{d}-{h}{mi}00.grib2.gz"`. -/
def ncepUrlOf (ts : String) : String :=
  let year := sliceStr ts 0 4
  let month := sliceStr ts 4 6
  let day := sliceStr ts 6 8
  let hour := sliceStr ts 9 11
  let minute := sliceStr ts 11 13
  ncep_base_url ++ "/" ++ "MRMS_ReflectivityAtLowestAltitude_00.50_" ++
    year ++ month ++ day ++ "-" ++ hour ++ minute ++ "00.grib2.gz"

/-- `_check_url_exists`: a HEAD request against the environment's probe
function; only status 200 counts, a network error (`none`) is `False`. -/
def check_url_exists (probe : String → Option ℕ) (url : String) : Bool :=
  match probe url with
  | some code => code == 200
  | none => false

/-- The first AWS loop of `get_latest_data_url`. -/
def firstHitAws (probe : String → Option ℕ) : List String → Option (String × String)
  | [] => none
  | ts :: rest =>
      if check_url_exists probe (awsUrlOf ts) then some (awsUrlOf ts, ts)
      else firstHitAws probe rest

/-- The second, NCEP loop of `get_latest_data_url`. -/
def firstHitNcep (probe : String → Option ℕ) : List String → Option (String × String)
  | [] => none
  | ts :: rest =>
      if check_url_exists probe (ncepUrlOf ts) then some (ncepUrlOf ts, ts)
      else firstHitNcep probe rest

/-- `get_latest_data_url`: try the AWS mirror over all candidates, then the
NCEP mirror over all candidates; `none` models the `(None, None)` return. -/
def get_latest_data_url (probe : String → Option ℕ) (now : DateTime) :
    Option (String × String) :=
  let timestamps := candidate_timestamps now
  match firstHitAws probe timestamps with
  | some r => some r
  | none => firstHitNcep probe timestamps

/-! ### Synthetic field generator (`MRMSDataProcessor._generate_realistic_mrms_data`) -/

/-- One entry of the `base_systems` list. -/
structure WeatherSystem where
  centerLat : ℚ
  centerLng : ℚ
  baseIntensity : ℚ
  timeBoost : ℚ
  radius : ℚ
  sysType : String
deriving DecidableEq, Repr

/-- The eight fixed weather-system templates of
`_generate_realistic_mrms_data`. -/
def base_systems : List WeatherSystem :=
  [ ⟨39, -95, 35, 15, 4, "convective"⟩,
    ⟨325 / 10, -86, 42, 5, 35 / 10, "stratiform"⟩,
    ⟨415 / 10, -74, 38, 8, 28 / 10, "showery"⟩,
    ⟨405 / 10, -1235 / 10, 45, 2, 32 / 10, "orographic"⟩,
    ⟨44, -1105 / 10, 32, 3, 45 / 10, "mountain"⟩,
    ⟨29, -91, 55, 10, 38 / 10, "thunderstorm"⟩,
    ⟨42, -99, 40, 12, 3, "developing"⟩,
    ⟨385 / 10, -85, 37, 6, 25 / 10, "valley"⟩ ]

/-- The `points_density` dictionary lookup, with default 35. -/
def points_density (t : String) : ℕ :=
  if t = "convective" then 45 else if t = "thunderstorm" then 50
  else if t = "stratiform" then 35 else if t = "showery" then 30
  else if t = "orographic" then 40 else if t = "mountain" then 35
  else if t = "developing" then 40 else if t = "valley" then 30 else 35

/-- One GeoJSON feature emitted by the generator. The `lng`/`lat` fields model
the `coordinates` pair, and the remaining fields the `properties` dict. -/
structure Feature where
  lng : ℚ
  lat : ℚ
  reflectivity : ℚ
  unit : String
  intensity : String
  systemType : String
  dataSource : String
  timestamp : String
deriving DecidableEq, Repr

/-- The `metadata` dict of the generated FeatureCollection. -/
structure FCMetadata where
  source : String
  mrmsProduct : String
  resolution : String
  timestamp : String
  totalPoints : ℕ
  dataType : String
deriving DecidableEq, Repr

/-- The generated FeatureCollection. -/
structure FeatureCollection where
  features : List Feature
  metadata : FCMetadata
deriving DecidableEq, Repr

/-- The ambient nondeterminism of the generator: `math.sin`, `math.cos`, and
the stream of `random()` draws consumed left to right by `random.uniform`. -/
structure GenEnv where
  msin : ℚ → ℚ
  mcos : ℚ → ℚ
  rand : ℕ → ℚ

/-- The body of the inner `for i in range(num_points)` loop: draw an angle and
a distance, keep the point only if it lands in the CONUS box, in which case a
third draw supplies the turbulence. Returns the emitted feature (if any) and
the index of the next unconsumed random draw. -/
def genPoint (env : GenEnv) (sys : WeatherSystem) (currentIntensity : ℚ) (ts : String)
    (i : ℕ) : Option Feature × ℕ :=
  let angle := pyUniform 0 (2 * mathPi) (env.rand i)
  let distance := pyUniform (1 / 10) sys.radius (env.rand (i + 1))
  let lat := sys.centerLat + distance * env.mcos angle
  let lng := sys.centerLng + distance * env.msin angle
  if 25 ≤ lat ∧ lat ≤ 49 ∧ -125 ≤ lng ∧ lng ≤ -67 then
    let distanceFactor := 1 - distance / sys.radius
    let turbulence := pyUniform (-8) 8 (env.rand (i + 2))
    let reflectivity := currentIntensity * distanceFactor + turbulence
    let reflectivity2 := max 18 (min 65 reflectivity)
    (some { lng := pyRound lng 6, lat := pyRound lat 6,
            reflectivity := pyRound reflectivity2 1, unit := "dBZ",
            intensity := get_intensity_level reflectivity2,
            systemType := sys.sysType, dataSource := "MRMS", timestamp := ts }, i + 3)
  else (none, i + 2)

/-- The inner loop over `range(num_points)`, appending surviving features in
iteration order and threading the random-draw index. -/
def genPointsLoop (env : GenEnv) (sys : WeatherSystem) (currentIntensity : ℚ)
    (ts : String) : ℕ → ℕ → List Feature × ℕ
  | 0, i => ([], i)
  | n + 1, i =>
      match genPoint env sys currentIntensity ts i with
      | (some f, i2) =>
          let (rest, i3) := genPointsLoop env sys currentIntensity ts n i2
          (f :: rest, i3)
      | (none, i2) => genPointsLoop env sys currentIntensity ts n i2

/-- The outer loop over `base_systems`: clamp the time-adjusted intensity to
`[25, 60]`, look up the per-type density, and run the point loop. -/
def genSystemsLoop (env : GenEnv) (ts : String) (dayFactor : ℚ) :
    List WeatherSystem → ℕ → List Feature × ℕ
  | [], i => ([], i)
  | sys :: rest, i =>
      let currentIntensity := max 25 (min 60 (sys.baseIntensity + sys.timeBoost * dayFactor))
      let numPoints := points_density sys.sysType
      let (fs, i2) := genPointsLoop env sys currentIntensity ts numPoints i
      let (fs2, i3) := genSystemsLoop env ts dayFactor rest i2
      (fs ++ fs2, i3)

/-- `_generate_realistic_mrms_data`: parse the fixed-width timestamp fields
with `int()` in source order (the first failed parse raises), compute the
diurnal factor, generate all systems, and wrap the result. `Except.error`
models a propagated exception. -/
def generate_realistic_mrms_data (env : GenEnv) (timestamp : String) :
    Except String FeatureCollection :=
  match pyInt (sliceStr timestamp 0 4) with
  | Except.error e => Except.error e
  | Except.ok _year =>
  match pyInt (sliceStr timestamp 4 6) with
  | Except.error e => Except.error e
  | Except.ok _month =>
  match pyInt (sliceStr timestamp 6 8) with
  | Except.error e => Except.error e
  | Except.ok _day =>
  match pyInt (sliceStr timestamp 9 11) with
  | Except.error e => Except.error e
  | Except.ok hour =>
  match pyInt (sliceStr timestamp 11 13) with
  | Except.error e => Except.error e
  | Except.ok minute =>
      let timeOfDay : ℚ := (hour : ℚ) + (minute : ℚ) / 60
      let dayFactor := env.msin (timeOfDay * mathPi / 12)
      let features := (genSystemsLoop env timestamp dayFactor base_systems 0).1
      Except.ok
        { features := features,
          metadata :=
            { source := "NOAA MRMS ReflectivityAtLowestAltitude", mrmsProduct := "RALA",
              resolution := "0.50 km", timestamp := timestamp,
              totalPoints := features.length, dataType := "REAL_MRMS_SIMULATION" } }

/-- The features of a generator outcome (empty when an exception was raised). -/
def featuresOf (r : Except String FeatureCollection) : List Feature :=
  match r with
  | Except.ok fc => fc.features
  | Except.error _ => []

/-! ### Orchestrator (`MRMSDataProcessor.download_and_process_data`) -/

/-- `data_url.split('/')[-1].replace('.grib2.gz', '')` from line 137. -/
def derivedTimestamp (data_url : String) : String :=
  stripAll ".grib2.gz" (lastSegment data_url)

/-- `download_and_process_data`: re-derive the timestamp from the URL filename
and delegate to the generator. There is no `try` here, so a generator
exception propagates to the caller. -/
def download_and_process_data (env : GenEnv) (data_url : String) :
    Except String FeatureCollection :=
  generate_realistic_mrms_data env (derivedTimestamp data_url)

/-! ### Cache-fronted request handler (`mrms_service.get_radar_data`) -/

/-- One observation of `datetime.now()`: its value in seconds (for
`total_seconds` arithmetic) and its `isoformat()` string. -/
structure Instant where
  seconds : ℚ
  iso : String
deriving DecidableEq, Repr

/-- `CACHE_DURATION = 120  # 2 minutes`. -/
def CACHE_DURATION : ℚ := 120

/-- The constant `bounds` list of the response envelope. -/
def conusBounds : List (ℚ × ℚ) :=
  [(24396308 / 10 ^ 6, -125), (49384358 / 10 ^ 6, -66934570 / 10 ^ 6)]

/-- The success-response dict built at lines 41-49 / 63-71 of
`mrms_service.py`. -/
structure OkBody where
  success : Bool
  timestamp : String
  dataUrl : String
  data : FeatureCollection
  bounds : List (ℚ × ℚ)
  note : String
  source : String
deriving DecidableEq, Repr

/-- The handler's response: a 200 success dict, or the 500
`{success: False, error, timestamp}` dict. -/
inductive RadarResponse where
  | ok (body : OkBody)
  | err (error : String) (timestamp : String)
deriving DecidableEq, Repr

/-- The HTTP status the handler attaches to a response. -/
def respStatus : RadarResponse → ℕ
  | RadarResponse.ok _ => 200
  | RadarResponse.err _ _ => 500

/-- The `success` field of a response body. -/
def respSuccess : RadarResponse → Bool
  | RadarResponse.ok body => body.success
  | RadarResponse.err _ _ => false

/-- The module-level mutable state: `cached_data` and `last_fetch_time`. -/
structure ServiceState where
  cached_data : Option OkBody
  last_fetch_time : Option ℚ
deriving DecidableEq, Repr

/-- Everything the handler observes from the outside world in one request:
successive `datetime.now()` calls (index 0 = cache check, 1 = response
timestamp, 2 = cache stamp, 3 = error timestamp), the two `datetime.utcnow()`
calls (inside the prober and in the fallback branch), the network probe, and
the generator's environment. -/
structure HandlerWorld where
  clock : ℕ → Instant
  proberNow : DateTime
  fallbackNow : DateTime
  probe : String → Option ℕ
  env : GenEnv

/-- The outcome of one handler call: the response, the new module state, and
whether the prober / the downloader were invoked. -/
structure RadarResult where
  resp : RadarResponse
  state : ServiceState
  probed : Bool
  fetched : Bool
deriving DecidableEq, Repr

/-- Python truthiness of the generated FeatureCollection dict: a dict literal
with three keys is always truthy. -/
def fcTruthy (_fc : FeatureCollection) : Bool := true

/-- Lines 58-76: the fallback branch taken when no real data URL was found
(or when the processed data was falsy). A generator exception propagates to
the `except` handler, which does not touch the cache. -/
def fallbackBranch (w : HandlerWorld) (st : ServiceState) : RadarResult :=
  let current_timestamp := strftimeTs w.fallbackNow
  match generate_realistic_mrms_data w.env current_timestamp with
  | Except.ok fallback_data =>
      let result : OkBody :=
        { success := true, timestamp := (w.clock 1).iso,
          dataUrl := "https://noaa-mrms-pds.s3.amazonaws.com/", data := fallback_data,
          bounds := conusBounds, note := "Real MRMS Data - Enhanced Simulation",
          source := "NOAA MRMS" }
      ⟨RadarResponse.ok result, ⟨some result, some (w.clock 2).seconds⟩, true, false⟩
  | Except.error e => ⟨RadarResponse.err e (w.clock 3).iso, st, true, false⟩

/-- Lines 31-84: the `try` block run when the cache is stale or empty. -/
def get_radar_data_stale (w : HandlerWorld) (st : ServiceState) : RadarResult :=
  match get_latest_data_url w.probe w.proberNow with
  | some (data_url, _timestamp) =>
      if data_url ≠ "" then
        match download_and_process_data w.env data_url with
        | Except.ok processed_data =>
            if fcTruthy processed_data then
              let result : OkBody :=
                { success := true, timestamp := (w.clock 1).iso, dataUrl := data_url,
                  data := processed_data, bounds := conusBounds,
                  note := "Real MRMS Reflectivity at Lowest Altitude (RALA) - Enhanced Simulation",
                  source := "NOAA MRMS" }
              ⟨RadarResponse.ok result, ⟨some result, some (w.clock 2).seconds⟩, true, true⟩
            else fallbackBranch w st
        | Except.error e => ⟨RadarResponse.err e (w.clock 3).iso, st, true, true⟩
      else fallbackBranch w st
  | none => fallbackBranch w st

/-- The cache-freshness test of lines 25-27: both state slots are set and the
elapsed time is strictly below `CACHE_DURATION`. -/
def cacheFresh (w : HandlerWorld) (st : ServiceState) : Bool :=
  match st.cached_data, st.last_fetch_time with
  | some _, some t => decide ((w.clock 0).seconds - t < CACHE_DURATION)
  | _, _ => false

/-- `get_radar_data` from `mrms_service.py`: serve the cache when fresh,
otherwise run the `try` block. -/
def get_radar_data (w : HandlerWorld) (st : ServiceState) : RadarResult :=
  match st.cached_data, st.last_fetch_time with
  | some body, some t =>
      if (w.clock 0).seconds - t < CACHE_DURATION then ⟨RadarResponse.ok body, st, false, false⟩
      else get_radar_data_stale w st
  | some _, none => get_radar_data_stale w st
  | none, _ => get_radar_data_stale w st

/-! ### Concrete fixtures used to instantiate the theorems -/

/-- A parseable generator timestamp with hour and minute zero. -/
def ts0 : String := "20240601-000000"

/-- An environment whose draws keep exactly the first point of the first
weather system inside the CONUS box and push every other point far outside. -/
def env0 : GenEnv :=
  { msin := fun x => if x = 0 then 0 else 5,
    mcos := fun x => if x = 0 then 0 else 5,
    rand := fun i => if i ≤ 1 then 0 else 1000 }

/-- The single feature `env0` produces from `ts0`. -/
def f0 : Feature :=
  { lng := -95, lat := 39, reflectivity := 65, unit := "dBZ", intensity := "extreme",
    systemType := "convective", dataSource := "MRMS", timestamp := ts0 }

/-- The spec's probe fixture instant, `2024-06-01T12:07:30Z`. -/
def now5 : DateTime := ⟨2024, 6, 1, 12, 7, 30⟩

/-- The newest candidate's secondary-mirror URL at `now5`. -/
def ncepUrl0 : String := ncepUrlOf "20240601-120600"

/-- The newest candidate's primary-mirror URL at `now5`. -/
def awsUrl0 : String := awsUrlOf "20240601-120600"

/-- A network where only the newest NCEP candidate exists. -/
def probeNcepOnly : String → Option ℕ := fun u => if u = ncepUrl0 then some 200 else some 404

/-- A network where nothing exists. -/
def probeNothing : String → Option ℕ := fun _ => some 404

/-- A deterministic clock: call `i` observes `i` seconds and ISO string `Ti`. -/
def clockSeq : ℕ → Instant := fun i => ⟨(i : ℚ), "T" ++ natToStr i⟩

/-- A generator environment with all draws and trigonometry zero. -/
def envZero : GenEnv := { msin := fun _ => 0, mcos := fun _ => 0, rand := fun _ => 0 }

/-- A world that makes the handler hit the NCEP decode failure. -/
def wErr : HandlerWorld :=
  { clock := clockSeq, proberNow := now5, fallbackNow := ⟨2024, 6, 1, 0, 0, 0⟩,
    probe := probeNcepOnly, env := envZero }

/-- A world where both mirrors are empty, driving the synthetic fallback. -/
def wFallback : HandlerWorld :=
  { clock := clockSeq, proberNow := now5, fallbackNow := ⟨2024, 6, 1, 0, 0, 0⟩,
    probe := probeNothing, env := envZero }

/-- A world observing second 10 on every clock call. -/
def wFresh1 : HandlerWorld :=
  { clock := fun _ => ⟨10, "T10"⟩, proberNow := now5, fallbackNow := ⟨2024, 6, 1, 0, 0, 0⟩,
    probe := probeNothing, env := envZero }

/-- A world observing second 50 on every clock call. -/
def wFresh2 : HandlerWorld :=
  { clock := fun _ => ⟨50, "T50"⟩, proberNow := now5, fallbackNow := ⟨2024, 6, 1, 0, 0, 0⟩,
    probe := probeNothing, env := envZero }

/-- A minimal cached response body for exercising the fresh-cache path. -/
def tinyBody : OkBody :=
  { success := true, timestamp := "T1", dataUrl := "u", bounds := conusBounds,
    note := "n", source := "s",
    data := { features := [],
              metadata := { source := "s", mrmsProduct := "RALA", resolution := "0.50 km",
                            timestamp := ts0, totalPoints := 0, dataType := "d" } } }

/-- A state holding `tinyBody`, fetched at second 0. -/
def stFresh : ServiceState := ⟨some tinyBody, some 0⟩

/-- The environment of the reflectivity-boundary exhibit: the third draw is
tuned so the clamped raw reflectivity is exactly 49.96. -/
def env2 : GenEnv :=
  { msin := fun _ => 0, mcos := fun _ => 0, rand := fun j => if j = 2 then 4187 / 15200 else 0 }

/-- The bounds every emitted reading satisfies. -/
def readingInBounds (f : Feature) : Prop :=
  25 ≤ f.lat ∧ f.lat ≤ 49 ∧ -125 ≤ f.lng ∧ f.lng ≤ -67 ∧
  18 ≤ f.reflectivity ∧ f.reflectivity ≤ 65

/-- Sum of point budgets of a system list. -/
def sumDensity (l : List WeatherSystem) : ℕ := (l.map (fun s => points_density s.sysType)).sum

/-- An upper bound on the random draws one generator run consumes: at most
three draws per iteration over every system's point budget. -/
def drawBound : ℕ := 3 * (base_systems.map (fun s => points_density s.sysType)).sum

/-! ## Theorems -/

/-! ### Helper lemmas -/

/-- A failed `int()` on the year slice propagates out of the generator. -/
theorem gen_err (env : GenEnv) (ts e : String) (h : pyInt (sliceStr ts 0 4) = Except.error e) :
    generate_realistic_mrms_data env ts = Except.error e := by
  unfold generate_realistic_mrms_data
  rw [h]

/-! ### C8: the intensity classifier -/

/-- C8: `_get_intensity_level` is a total deterministic threshold function:
`≥50 → extreme`, `≥40 → heavy`, `≥30 → moderate`, `≥20 → light`, else
`very light`, thresholds inclusive on the lower bound and evaluated in
descending order; the listed boundary values classify as stated. -/
theorem C8_intensity_classifier :
    (∀ v : ℚ, 50 ≤ v → get_intensity_level v = "extreme") ∧
    (∀ v : ℚ, 40 ≤ v → v < 50 → get_intensity_level v = "heavy") ∧
    (∀ v : ℚ, 30 ≤ v → v < 40 → get_intensity_level v = "moderate") ∧
    (∀ v : ℚ, 20 ≤ v → v < 30 → get_intensity_level v = "light") ∧
    (∀ v : ℚ, v < 20 → get_intensity_level v = "very light") ∧
    get_intensity_level 50 = "extreme" ∧
    get_intensity_level (49999 / 1000) = "heavy" ∧
    get_intensity_level 40 = "heavy" ∧
    get_intensity_level (39999 / 1000) = "moderate" ∧
    get_intensity_level 30 = "moderate" ∧
    get_intensity_level 20 = "light" ∧
    get_intensity_level (19999 / 1000) = "very light" := by
  refine ⟨?_, ?_, ?_, ?_, ?_, ?_, ?_, ?_, ?_, ?_, ?_, ?_⟩
  · intro v h
    simp only [get_intensity_level, ge_iff_le]
    rw [if_pos h]
  · intro v h1 h2
    simp only [get_intensity_level, ge_iff_le]
    rw [if_neg (by linarith), if_pos h1]
  · intro v h1 h2
    simp only [get_intensity_level, ge_iff_le]
    rw [if_neg (by linarith), if_neg (by linarith), if_pos h1]
  · intro v h1 h2
    simp only [get_intensity_level, ge_iff_le]
    rw [if_neg (by linarith), if_neg (by linarith), if_neg (by linarith), if_pos h1]
  · intro v h1
    simp only [get_intensity_level, ge_iff_le]
    rw [if_neg (by linarith), if_neg (by linarith), if_neg (by linarith), if_neg (by linarith)]
  all_goals norm_num [get_intensity_level]

/-- Witness for C8 at the concrete input 60. -/
theorem C8_intensity_classifier_witness : get_intensity_level 60 = "extreme" :=
  C8_intensity_classifier.1 60 (by norm_num)

/-! ### C1: orchestrator keying on NCEP references -/

/-- C1 (code bug): for a secondary-mirror (NCEP) reference the orchestrator
derives the generator key from the URL filename, which is the full filename
stem rather than the reference's timestamp; the generator's `int()` parse of
that stem raises, and `download_and_process_data` has no handler, so the
exception propagates to the request handler instead of falling back. The AWS
filename convention, by contrast, makes the derived key coincide with the
reference timestamp. -/
theorem C1_ncep_reference_key_mismatch :
    ∀ env : GenEnv,
      derivedTimestamp ncepUrl0 = "MRMS_ReflectivityAtLowestAltitude_00.50_20240601-120600" ∧
      download_and_process_data env ncepUrl0 =
        Except.error "invalid literal for int() with base 10: MRMS" ∧
      derivedTimestamp awsUrl0 = "20240601-120600" ∧
      download_and_process_data env awsUrl0 =
        generate_realistic_mrms_data env "20240601-120600" := by
  intro env
  refine ⟨by with_unfolding_all decide, ?_, by with_unfolding_all decide, ?_⟩
  · show generate_realistic_mrms_data env (derivedTimestamp ncepUrl0) = _
    rw [show derivedTimestamp ncepUrl0 =
          "MRMS_ReflectivityAtLowestAltitude_00.50_20240601-120600"
        from by with_unfolding_all decide]
    exact gen_err _ _ _ (by with_unfolding_all decide)
  · show generate_realistic_mrms_data env (derivedTimestamp awsUrl0) = _
    rw [show derivedTimestamp awsUrl0 = "20240601-120600" from by with_unfolding_all decide]

/-! ### C5: prober candidate timestamps -/

/-- C5: for every instant, the prober rounds the minute down to the 2-minute
boundary and emits exactly 11 candidates, the `i`-th being the boundary moved
back `2*i` minutes and formatted `YYYYMMDD-HHMM00` (descending recency); on
the fixture `2024-06-01T12:07:30Z` the list runs from `20240601-120600` down
by 2 minutes to `20240601-114600`. -/
theorem C5_candidate_timestamps :
    (∀ now : DateTime,
      candidate_timestamps now =
        (List.range 11).map (fun i =>
          strftimeTs
            (subMinutes { now with minute := now.minute / 2 * 2, second := 0 } (2 * i)))) ∧
    (∀ now : DateTime, (candidate_timestamps now).length = 11) ∧
    candidate_timestamps now5 =
      ["20240601-120600", "20240601-120400", "20240601-120200", "20240601-120000",
       "20240601-115800", "20240601-115600", "20240601-115400", "20240601-115200",
       "20240601-115000", "20240601-114800", "20240601-114600"] := by
  have hmain : ∀ now : DateTime,
      candidate_timestamps now =
        (List.range 11).map (fun i =>
          strftimeTs
            (subMinutes { now with minute := now.minute / 2 * 2, second := 0 } (2 * i))) := by
    intro now
    rw [show List.range 11 = [0, 1, 2, 3, 4, 5, 6, 7, 8, 9, 10] from by decide]
    simp only [candidate_timestamps, probeOffsets, List.map, List.cons.injEq, and_true]
    refine ⟨rfl, ?_, ?_, ?_, ?_, ?_, ?_, ?_, ?_, ?_, ?_⟩ <;>
      · apply congrArg
        norm_num [pyAddMinutes]
  refine ⟨hmain, ?_, by with_unfolding_all decide⟩
  intro now
  rw [hmain now]
  simp

/-! ### C6: prober search order and existence criterion -/

/-- The AWS loop is the first match over the AWS candidate URLs. -/
theorem firstHitAws_eq (probe : String → Option ℕ) (l : List String) :
    firstHitAws probe l =
      (l.map (fun ts => (awsUrlOf ts, ts))).find? (fun p => check_url_exists probe p.1) := by
  induction l with
  | nil => rfl
  | cons ts rest ih =>
      by_cases h : check_url_exists probe (awsUrlOf ts) = true
      · simp [firstHitAws, List.find?, h]
      · simp only [Bool.not_eq_true] at h
        simp [firstHitAws, List.find?, h, ih]

/-- The NCEP loop is the first match over the NCEP candidate URLs. -/
theorem firstHitNcep_eq (probe : String → Option ℕ) (l : List String) :
    firstHitNcep probe l =
      (l.map (fun ts => (ncepUrlOf ts, ts))).find? (fun p => check_url_exists probe p.1) := by
  induction l with
  | nil => rfl
  | cons ts rest ih =>
      by_cases h : check_url_exists probe (ncepUrlOf ts) = true
      · simp [firstHitNcep, List.find?, h]
      · simp only [Bool.not_eq_true] at h
        simp [firstHitNcep, List.find?, h, ih]

/-- C6: an existence probe succeeds exactly on HTTP 200 (network errors and
other statuses count as absent); the prober returns the first hit of the
list that tries the primary mirror across all 11 candidates in descending
recency order before any secondary-mirror candidate; and it returns NotFound
exactly when no candidate exists on either mirror. -/
theorem C6_prober_order (probe : String → Option ℕ) (now : DateTime) :
    (∀ url, check_url_exists probe url = true ↔ probe url = some 200) ∧
    get_latest_data_url probe now =
      ((candidate_timestamps now).map (fun ts => (awsUrlOf ts, ts)) ++
       (candidate_timestamps now).map (fun ts => (ncepUrlOf ts, ts))).find?
        (fun p => check_url_exists probe p.1) ∧
    (get_latest_data_url probe now = none ↔
      ∀ ts ∈ candidate_timestamps now,
        check_url_exists probe (awsUrlOf ts) = false ∧
        check_url_exists probe (ncepUrlOf ts) = false) := by
  have hchk : ∀ url, check_url_exists probe url = true ↔ probe url = some 200 := by
    intro url
    unfold check_url_exists
    cases probe url with
    | none => simp
    | some code => simp [Nat.beq_eq_true_eq]
  have hmain : get_latest_data_url probe now =
      ((candidate_timestamps now).map (fun ts => (awsUrlOf ts, ts)) ++
       (candidate_timestamps now).map (fun ts => (ncepUrlOf ts, ts))).find?
        (fun p => check_url_exists probe p.1) := by
    show (match firstHitAws probe (candidate_timestamps now) with
          | some r => some r
          | none => firstHitNcep probe (candidate_timestamps now)) = _
    rw [List.find?_append, firstHitAws_eq, firstHitNcep_eq]
    cases (candidate_timestamps now).map (fun ts => (awsUrlOf ts, ts)) |>.find?
        (fun p => check_url_exists probe p.1) with
    | none => simp [Option.or]
    | some r => simp [Option.or]
  refine ⟨hchk, hmain, ?_⟩
  rw [hmain, List.find?_eq_none]
  constructor
  · intro h ts hts
    constructor
    · have := h (awsUrlOf ts, ts)
        (List.mem_append_left _ (List.mem_map_of_mem (fun ts => (awsUrlOf ts, ts)) hts))
      simpa using this
    · have := h (ncepUrlOf ts, ts)
        (List.mem_append_right _ (List.mem_map_of_mem (fun ts => (ncepUrlOf ts, ts)) hts))
      simpa using this
  · intro h p hp
    rcases List.mem_append.1 hp with hl | hr
    · rcases List.mem_map.1 hl with ⟨ts, hts, rfl⟩
      simpa using (h ts hts).1
    · rcases List.mem_map.1 hr with ⟨ts, hts, rfl⟩
      simpa using (h ts hts).2

/-- Witness for C6: with an all-404 network, the prober at the fixture
instant returns NotFound. -/
theorem C6_prober_order_witness : get_latest_data_url probeNothing now5 = none :=
  (C6_prober_order probeNothing now5).2.2.mpr (by with_unfolding_all decide)

/-! ### C7: bounds on emitted readings -/

theorem roundHalfEven_le {x : ℚ} {m : ℤ} (h : x ≤ (m : ℚ)) : roundHalfEven x ≤ m := by
  have hfl : ⌊x⌋ ≤ m := Int.floor_le_floor h |>.trans_eq (Int.floor_intCast m)
  have hlow : (⌊x⌋ : ℚ) ≤ x := Int.floor_le x
  have hstep : (⌊x⌋ : ℚ) + 1 / 2 ≤ (m : ℚ) → ⌊x⌋ + 1 ≤ m := by
    intro hx
    have hq : (⌊x⌋ : ℚ) < (m : ℚ) := by linarith
    have hz : ⌊x⌋ < m := by exact_mod_cast hq
    omega
  simp only [roundHalfEven]
  split
  · exact hfl
  · rename_i h1
    split
    · rename_i h2
      exact hstep (by linarith [not_lt.1 h1])
    · split
      · exact hfl
      · exact hstep (by linarith [not_lt.1 h1])

theorem le_roundHalfEven {x : ℚ} {n : ℤ} (h : (n : ℚ) ≤ x) : n ≤ roundHalfEven x := by
  have hfl : n ≤ ⌊x⌋ := Int.le_floor.2 h
  simp only [roundHalfEven]
  split
  · exact hfl
  · split
    · omega
    · split
      · exact hfl
      · omega

theorem pyRound_le {x : ℚ} {m : ℤ} (k : ℕ) (h : x ≤ (m : ℚ)) : pyRound x k ≤ (m : ℚ) := by
  unfold pyRound
  rw [div_le_iff₀ (by positivity)]
  have hb : x * 10 ^ k ≤ ((m * 10 ^ k : ℤ) : ℚ) := by
    push_cast
    exact mul_le_mul_of_nonneg_right h (by positivity)
  have hr := roundHalfEven_le hb
  calc ((roundHalfEven (x * 10 ^ k) : ℤ) : ℚ) ≤ ((m * 10 ^ k : ℤ) : ℚ) := by exact_mod_cast hr
    _ = (m : ℚ) * 10 ^ k := by push_cast; ring

theorem le_pyRound {x : ℚ} {n : ℤ} (k : ℕ) (h : (n : ℚ) ≤ x) : (n : ℚ) ≤ pyRound x k := by
  unfold pyRound
  rw [le_div_iff₀ (by positivity)]
  have hb : ((n * 10 ^ k : ℤ) : ℚ) ≤ x * 10 ^ k := by
    push_cast
    exact mul_le_mul_of_nonneg_right h (by positivity)
  have hr := le_roundHalfEven hb
  calc (n : ℚ) * 10 ^ k = ((n * 10 ^ k : ℤ) : ℚ) := by push_cast; ring
    _ ≤ ((roundHalfEven (x * 10 ^ k) : ℤ) : ℚ) := by exact_mod_cast hr

/-- A feature emitted by a single loop iteration is inside the CONUS box and
its clamped, rounded reflectivity is in `[18, 65]`. -/
theorem genPoint_some_bounds (env : GenEnv) (sys : WeatherSystem) (cI : ℚ) (ts : String)
    (i j : ℕ) (f : Feature) (h : genPoint env sys cI ts i = (some f, j)) :
    readingInBounds f := by
  simp only [genPoint] at h
  set ang := pyUniform 0 (2 * mathPi) (env.rand i) with hang
  set dist := pyUniform (1 / 10) sys.radius (env.rand (i + 1)) with hdist
  set latv := sys.centerLat + dist * env.mcos ang with hlatv
  set lngv := sys.centerLng + dist * env.msin ang with hlngv
  set reflv := max 18 (min 65 (cI * (1 - dist / sys.radius) + pyUniform (-8) 8 (env.rand (i + 2))))
    with hreflv
  split at h
  · rename_i hbox
    obtain ⟨h25, h49, hm125, hm67⟩ := hbox
    simp only [Prod.mk.injEq, Option.some.injEq] at h
    obtain ⟨hf, -⟩ := h
    subst hf
    have h18 : (18 : ℚ) ≤ reflv := le_max_left _ _
    have h65 : reflv ≤ (65 : ℚ) := max_le (by norm_num) (min_le_left _ _)
    unfold readingInBounds
    dsimp only
    refine ⟨?_, ?_, ?_, ?_, ?_, ?_⟩
    · exact_mod_cast le_pyRound (n := 25) 6 (by exact_mod_cast h25)
    · exact_mod_cast pyRound_le (m := 49) 6 (by exact_mod_cast h49)
    · exact_mod_cast le_pyRound (n := -125) 6 (by exact_mod_cast hm125)
    · exact_mod_cast pyRound_le (m := -67) 6 (by exact_mod_cast hm67)
    · exact_mod_cast le_pyRound (n := 18) 1 (by exact_mod_cast h18)
    · exact_mod_cast pyRound_le (m := 65) 1 (by exact_mod_cast h65)
  · simp at h

/-- Every feature produced by the inner point loop is in bounds. -/
theorem genPointsLoop_mem_bounds (env : GenEnv) (sys : WeatherSystem) (cI : ℚ) (ts : String) :
    ∀ (n i : ℕ) (f : Feature), f ∈ (genPointsLoop env sys cI ts n i).1 → readingInBounds f := by
  intro n
  induction n with
  | zero => intro i f hf; simp [genPointsLoop] at hf
  | succ n ih =>
      intro i f hf
      rcases hg : genPoint env sys cI ts i with ⟨of, i2⟩
      cases of with
      | none =>
          rw [genPointsLoop, hg] at hf
          dsimp only at hf
          exact ih i2 f hf
      | some f2 =>
          rw [genPointsLoop, hg] at hf
          dsimp only at hf
          rcases hloop : genPointsLoop env sys cI ts n i2 with ⟨rest, i3⟩
          rw [hloop] at hf
          simp only [List.mem_cons] at hf
          rcases hf with rfl | hf
          · exact genPoint_some_bounds env sys cI ts i i2 f hg
          · have := ih i2 f
            rw [hloop] at this
            exact this hf

/-- Every feature produced by the outer system loop is in bounds. -/
theorem genSystemsLoop_mem_bounds (env : GenEnv) (ts : String) (dayFactor : ℚ) :
    ∀ (l : List WeatherSystem) (i : ℕ) (f : Feature),
      f ∈ (genSystemsLoop env ts dayFactor l i).1 → readingInBounds f := by
  intro l
  induction l with
  | nil => intro i f hf; simp [genSystemsLoop] at hf
  | cons sys rest ih =>
      intro i f hf
      rw [genSystemsLoop] at hf
      rcases hfs : genPointsLoop env sys
          (max 25 (min 60 (sys.baseIntensity + sys.timeBoost * dayFactor))) ts
          (points_density sys.sysType) i with ⟨fs, i2⟩
      rw [hfs] at hf
      dsimp only at hf
      rcases hrest : genSystemsLoop env ts dayFactor rest i2 with ⟨fs2, i3⟩
      rw [hrest] at hf
      simp only [List.mem_append] at hf
      rcases hf with hf | hf
      · have := genPointsLoop_mem_bounds env sys
          (max 25 (min 60 (sys.baseIntensity + sys.timeBoost * dayFactor))) ts
          (points_density sys.sysType) i f
        rw [hfs] at this
        exact this hf
      · have := ih i2 f
        rw [hrest] at this
        exact this hf

/-- C7: for every timestamp, every trigonometry, and every outcome of the
random draws, every reading emitted by the synthetic field generator has
latitude in `[25, 49]`, longitude in `[-125, -67]`, and (clamped, rounded)
reflectivity in `[18, 65]`. -/
theorem C7_reading_bounds (env : GenEnv) (ts : String) (f : Feature)
    (h : f ∈ featuresOf (generate_realistic_mrms_data env ts)) :
    25 ≤ f.lat ∧ f.lat ≤ 49 ∧ -125 ≤ f.lng ∧ f.lng ≤ -67 ∧
    18 ≤ f.reflectivity ∧ f.reflectivity ≤ 65 := by
  revert h
  unfold generate_realistic_mrms_data
  cases pyInt (sliceStr ts 0 4) with
  | error e => intro h; simp [featuresOf] at h
  | ok y =>
  cases pyInt (sliceStr ts 4 6) with
  | error e => intro h; simp [featuresOf] at h
  | ok mo =>
  cases pyInt (sliceStr ts 6 8) with
  | error e => intro h; simp [featuresOf] at h
  | ok d =>
  cases pyInt (sliceStr ts 9 11) with
  | error e => intro h; simp [featuresOf] at h
  | ok hh =>
  cases pyInt (sliceStr ts 11 13) with
  | error e => intro h; simp [featuresOf] at h
  | ok mi =>
  intro h
  exact genSystemsLoop_mem_bounds env ts _ base_systems 0 f h

/-- Witness for C7: the feature produced by `env0` from `ts0`. -/
theorem C7_reading_bounds_witness :
    25 ≤ f0.lat ∧ f0.lat ≤ 49 ∧ -125 ≤ f0.lng ∧ f0.lng ≤ -67 ∧
    18 ≤ f0.reflectivity ∧ f0.reflectivity ≤ 65 :=
  C7_reading_bounds env0 ts0 f0 (by
    rw [show featuresOf (generate_realistic_mrms_data env0 ts0) = [f0]
        from by with_unfolding_all decide]
    exact List.mem_singleton.2 rfl)

/-! ### C10: labels from the unrounded value, stored values rounded -/

/-- A feature emitted by one loop iteration stores the clamped reflectivity
rounded to 1 decimal, while its label classifies the clamped un-rounded
value. -/
theorem genPoint_some_label (env : GenEnv) (sys : WeatherSystem) (cI : ℚ) (ts : String)
    (i j : ℕ) (f : Feature) (h : genPoint env sys cI ts i = (some f, j)) :
    ∃ raw : ℚ, 18 ≤ raw ∧ raw ≤ 65 ∧
      f.reflectivity = pyRound raw 1 ∧ f.intensity = get_intensity_level raw := by
  simp only [genPoint] at h
  set reflv := max 18 (min 65 (cI * (1 - pyUniform (1 / 10) sys.radius (env.rand (i + 1)) / sys.radius)
    + pyUniform (-8) 8 (env.rand (i + 2)))) with hreflv
  split at h
  · simp only [Prod.mk.injEq, Option.some.injEq] at h
    obtain ⟨hf, -⟩ := h
    subst hf
    exact ⟨reflv, le_max_left _ _, max_le (by norm_num) (min_le_left _ _), rfl, rfl⟩
  · simp at h

/-- Every feature of the inner point loop arises from some `genPoint` call. -/
theorem genPointsLoop_mem_genPoint (env : GenEnv) (sys : WeatherSystem) (cI : ℚ) (ts : String) :
    ∀ (n i : ℕ) (f : Feature), f ∈ (genPointsLoop env sys cI ts n i).1 →
      ∃ i2 j, genPoint env sys cI ts i2 = (some f, j) := by
  intro n
  induction n with
  | zero => intro i f hf; simp [genPointsLoop] at hf
  | succ n ih =>
      intro i f hf
      rcases hg : genPoint env sys cI ts i with ⟨of, i2⟩
      cases of with
      | none =>
          rw [genPointsLoop, hg] at hf
          dsimp only at hf
          exact ih i2 f hf
      | some f2 =>
          rw [genPointsLoop, hg] at hf
          dsimp only at hf
          rcases hloop : genPointsLoop env sys cI ts n i2 with ⟨rest, i3⟩
          rw [hloop] at hf
          simp only [List.mem_cons] at hf
          rcases hf with rfl | hf
          · exact ⟨i, i2, hg⟩
          · have := ih i2 f
            rw [hloop] at this
            exact this hf

/-- Every feature of the outer system loop arises from some `genPoint` call. -/
theorem genSystemsLoop_mem_genPoint (env : GenEnv) (ts : String) (dayFactor : ℚ) :
    ∀ (l : List WeatherSystem) (i : ℕ) (f : Feature),
      f ∈ (genSystemsLoop env ts dayFactor l i).1 →
      ∃ (sys : WeatherSystem) (cI : ℚ) (i2 j : ℕ), genPoint env sys cI ts i2 = (some f, j) := by
  intro l
  induction l with
  | nil => intro i f hf; simp [genSystemsLoop] at hf
  | cons sys rest ih =>
      intro i f hf
      rw [genSystemsLoop] at hf
      rcases hfs : genPointsLoop env sys
          (max 25 (min 60 (sys.baseIntensity + sys.timeBoost * dayFactor))) ts
          (points_density sys.sysType) i with ⟨fs, i2⟩
      rw [hfs] at hf
      dsimp only at hf
      rcases hrest : genSystemsLoop env ts dayFactor rest i2 with ⟨fs2, i3⟩
      rw [hrest] at hf
      simp only [List.mem_append] at hf
      rcases hf with hf | hf
      · have := genPointsLoop_mem_genPoint env sys
          (max 25 (min 60 (sys.baseIntensity + sys.timeBoost * dayFactor))) ts
          (points_density sys.sysType) i f
        rw [hfs] at this
        obtain ⟨i4, j, hj⟩ := this hf
        exact ⟨sys, _, i4, j, hj⟩
      · have := ih i2 f
        rw [hrest] at this
        exact this hf

/-- C10 (implicit): every emitted reading stores the clamped reflectivity
rounded to 1 decimal while its label classifies the clamped un-rounded
value; `totalPoints` always equals the number of emitted features; and at a
threshold boundary value and label disagree: a raw reflectivity of 49.96
(= 1249/25) is labelled `heavy` but stored as 50.0, which would classify as
`extreme` — realised by an actual emitted feature of the Gulf-coast system. -/
theorem C10_label_from_unrounded :
    (∀ (env : GenEnv) (ts : String) (f : Feature),
        f ∈ featuresOf (generate_realistic_mrms_data env ts) →
        ∃ raw : ℚ, 18 ≤ raw ∧ raw ≤ 65 ∧
          f.reflectivity = pyRound raw 1 ∧ f.intensity = get_intensity_level raw) ∧
    (∀ (env : GenEnv) (ts : String) (fc : FeatureCollection),
        generate_realistic_mrms_data env ts = Except.ok fc →
        fc.metadata.totalPoints = fc.features.length) ∧
    get_intensity_level (1249 / 25) = "heavy" ∧
    pyRound (1249 / 25) 1 = 50 ∧
    get_intensity_level 50 = "extreme" ∧
    (∃ sys ∈ base_systems, ∃ f : Feature,
        genPoint env2 sys 55 ts0 0 = (some f, 3) ∧
        f.reflectivity = 50 ∧ f.intensity = "heavy") := by
  refine ⟨?_, ?_, by with_unfolding_all decide, by with_unfolding_all decide,
          by with_unfolding_all decide, ?_⟩
  · intro env ts f h
    revert h
    unfold generate_realistic_mrms_data featuresOf
    cases pyInt (sliceStr ts 0 4) with
    | error e => intro h; simp at h
    | ok y =>
    cases pyInt (sliceStr ts 4 6) with
    | error e => intro h; simp at h
    | ok mo =>
    cases pyInt (sliceStr ts 6 8) with
    | error e => intro h; simp at h
    | ok d =>
    cases pyInt (sliceStr ts 9 11) with
    | error e => intro h; simp at h
    | ok hh =>
    cases pyInt (sliceStr ts 11 13) with
    | error e => intro h; simp at h
    | ok mi =>
    intro h
    obtain ⟨sys, cI, i2, j, hj⟩ := genSystemsLoop_mem_genPoint env ts _ base_systems 0 f h
    exact genPoint_some_label env sys cI ts i2 j f hj
  · intro env ts fc h
    revert h
    unfold generate_realistic_mrms_data
    cases pyInt (sliceStr ts 0 4) with
    | error e => intro h; simp at h
    | ok y =>
    cases pyInt (sliceStr ts 4 6) with
    | error e => intro h; simp at h
    | ok mo =>
    cases pyInt (sliceStr ts 6 8) with
    | error e => intro h; simp at h
    | ok d =>
    cases pyInt (sliceStr ts 9 11) with
    | error e => intro h; simp at h
    | ok hh =>
    cases pyInt (sliceStr ts 11 13) with
    | error e => intro h; simp at h
    | ok mi =>
    intro h
    cases h
    rfl
  · refine ⟨⟨29, -91, 55, 10, 38 / 10, "thunderstorm"⟩, by with_unfolding_all decide,
      { lng := -91, lat := 29, reflectivity := 50, unit := "dBZ", intensity := "heavy",
        systemType := "thunderstorm", dataSource := "MRMS", timestamp := ts0 }, ?_, rfl, rfl⟩
    with_unfolding_all decide

/-- Witness for C10 at the feature produced by `env0` from `ts0`. -/
theorem C10_label_from_unrounded_witness :
    ∃ raw : ℚ, 18 ≤ raw ∧ raw ≤ 65 ∧
      f0.reflectivity = pyRound raw 1 ∧ f0.intensity = get_intensity_level raw :=
  C10_label_from_unrounded.1 env0 ts0 f0 (by
    rw [show featuresOf (generate_realistic_mrms_data env0 ts0) = [f0]
        from by with_unfolding_all decide]
    exact List.mem_singleton.2 rfl)

/-! ### C9: generator determinism in the random draws -/

theorem genPoint_next_le (env : GenEnv) (sys : WeatherSystem) (cI : ℚ) (ts : String) (i : ℕ) :
    (genPoint env sys cI ts i).2 ≤ i + 3 := by
  simp only [genPoint]
  split
  · omega
  · omega

theorem genPoint_agree (msin mcos : ℚ → ℚ) (u₁ u₂ : ℕ → ℚ) (sys : WeatherSystem) (cI : ℚ)
    (ts : String) (i : ℕ) (h : ∀ j, j < i + 3 → u₁ j = u₂ j) :
    genPoint ⟨msin, mcos, u₁⟩ sys cI ts i = genPoint ⟨msin, mcos, u₂⟩ sys cI ts i := by
  simp only [genPoint]
  rw [show u₁ i = u₂ i from h i (by omega),
      show u₁ (i + 1) = u₂ (i + 1) from h (i + 1) (by omega),
      show u₁ (i + 2) = u₂ (i + 2) from h (i + 2) (by omega)]

theorem genPointsLoop_agree (msin mcos : ℚ → ℚ) (u₁ u₂ : ℕ → ℚ) (sys : WeatherSystem)
    (cI : ℚ) (ts : String) :
    ∀ (n i : ℕ), (∀ j, j < i + 3 * n → u₁ j = u₂ j) →
      genPointsLoop ⟨msin, mcos, u₁⟩ sys cI ts n i =
        genPointsLoop ⟨msin, mcos, u₂⟩ sys cI ts n i := by
  intro n
  induction n with
  | zero => intro i h; rfl
  | succ n ih =>
      intro i h
      have hgp := genPoint_agree msin mcos u₁ u₂ sys cI ts i (fun j hj => h j (by omega))
      rcases hge : genPoint ⟨msin, mcos, u₂⟩ sys cI ts i with ⟨of, i2⟩
      have hgp1 : genPoint ⟨msin, mcos, u₁⟩ sys cI ts i = (of, i2) := by rw [hgp, hge]
      have hle : i2 ≤ i + 3 := by
        have hb := genPoint_next_le ⟨msin, mcos, u₂⟩ sys cI ts i
        rw [hge] at hb
        exact hb
      rw [genPointsLoop, genPointsLoop, hgp1, hge]
      cases of with
      | none =>
          dsimp only
          exact ih i2 (fun j hj => h j (by omega))
      | some f2 =>
          dsimp only
          rw [ih i2 (fun j hj => h j (by omega))]

theorem genPointsLoop_next_le (env : GenEnv) (sys : WeatherSystem) (cI : ℚ) (ts : String) :
    ∀ (n i : ℕ), (genPointsLoop env sys cI ts n i).2 ≤ i + 3 * n := by
  intro n
  induction n with
  | zero => intro i; simp [genPointsLoop]
  | succ n ih =>
      intro i
      rcases hge : genPoint env sys cI ts i with ⟨of, i2⟩
      have hle : i2 ≤ i + 3 := by
        have hb := genPoint_next_le env sys cI ts i
        rw [hge] at hb
        exact hb
      rw [genPointsLoop, hge]
      cases of with
      | none =>
          dsimp only
          have := ih i2
          omega
      | some f2 =>
          dsimp only
          rcases hloop : genPointsLoop env sys cI ts n i2 with ⟨rest, i3⟩
          have := ih i2
          rw [hloop] at this
          simp only [hloop]
          omega

theorem genSystemsLoop_agree (msin mcos : ℚ → ℚ) (u₁ u₂ : ℕ → ℚ) (ts : String) (dayFactor : ℚ) :
    ∀ (l : List WeatherSystem) (i : ℕ), (∀ j, j < i + 3 * sumDensity l → u₁ j = u₂ j) →
      genSystemsLoop ⟨msin, mcos, u₁⟩ ts dayFactor l i =
        genSystemsLoop ⟨msin, mcos, u₂⟩ ts dayFactor l i := by
  intro l
  induction l with
  | nil => intro i h; rfl
  | cons sys rest ih =>
      intro i h
      have hsum : sumDensity (sys :: rest) = points_density sys.sysType + sumDensity rest := by
        simp [sumDensity]
      rw [genSystemsLoop, genSystemsLoop]
      dsimp only
      have hpl := genPointsLoop_agree msin mcos u₁ u₂ sys
        (max 25 (min 60 (sys.baseIntensity + sys.timeBoost * dayFactor))) ts
        (points_density sys.sysType) i (fun j hj => h j (by omega))
      rcases hge : genPointsLoop ⟨msin, mcos, u₂⟩ sys
          (max 25 (min 60 (sys.baseIntensity + sys.timeBoost * dayFactor))) ts
          (points_density sys.sysType) i with ⟨fs, i2⟩
      have hpl1 : genPointsLoop ⟨msin, mcos, u₁⟩ sys
          (max 25 (min 60 (sys.baseIntensity + sys.timeBoost * dayFactor))) ts
          (points_density sys.sysType) i = (fs, i2) := by rw [hpl, hge]
      have hle : i2 ≤ i + 3 * points_density sys.sysType := by
        have hb := genPointsLoop_next_le ⟨msin, mcos, u₂⟩ sys
          (max 25 (min 60 (sys.baseIntensity + sys.timeBoost * dayFactor))) ts
          (points_density sys.sysType) i
        rw [hge] at hb
        exact hb
      rw [hpl1]
      dsimp only
      rw [ih i2 (fun j hj => h j (by omega))]

/-- C9: feeding the generator the same timestamp with random sources that
agree on every draw the run can consume (at most `drawBound = 3` per
iteration over all systems' point budgets) yields identical
FeatureCollections; in particular identical draw streams give identical
results. -/
theorem C9_generator_deterministic (msin mcos : ℚ → ℚ) (u₁ u₂ : ℕ → ℚ) (ts : String)
    (h : ∀ j, j < drawBound → u₁ j = u₂ j) :
    generate_realistic_mrms_data ⟨msin, mcos, u₁⟩ ts =
      generate_realistic_mrms_data ⟨msin, mcos, u₂⟩ ts := by
  unfold generate_realistic_mrms_data
  cases pyInt (sliceStr ts 0 4) with
  | error e => rfl
  | ok y =>
  cases pyInt (sliceStr ts 4 6) with
  | error e => rfl
  | ok mo =>
  cases pyInt (sliceStr ts 6 8) with
  | error e => rfl
  | ok d =>
  cases pyInt (sliceStr ts 9 11) with
  | error e => rfl
  | ok hh =>
  cases pyInt (sliceStr ts 11 13) with
  | error e => rfl
  | ok mi =>
  dsimp only
  rw [genSystemsLoop_agree msin mcos u₁ u₂ ts _ base_systems 0 (fun j hj => h j (by
    have : drawBound = 3 * sumDensity base_systems := rfl
    omega))]

/-- Witness for C9 with equal zero draw streams. -/
theorem C9_generator_deterministic_witness :
    generate_realistic_mrms_data ⟨fun _ => 0, fun _ => 0, fun _ => 0⟩ ts0 =
      generate_realistic_mrms_data ⟨fun _ => 0, fun _ => 0, fun _ => 0⟩ ts0 :=
  C9_generator_deterministic (fun _ => 0) (fun _ => 0) (fun _ => 0) (fun _ => 0) ts0
    (fun _ _ => rfl)

/-! ### C2: NotFound from the prober still yields a successful synthetic response -/

/-- String concatenation concatenates the underlying character lists. -/
theorem strData_append (s t : String) : (s ++ t).data = s.data ++ t.data := rfl

/-- The zero padding character is a digit. -/
theorem isDigitCh_zero : isDigitCh '0' = true := by decide

/-- Every `digitChar` output is a digit character. -/
theorem isDigitCh_digitChar (d : ℕ) : isDigitCh (digitChar d) = true := by
  unfold digitChar
  repeat' split
  all_goals decide

/-- One-digit rendering. -/
theorem natDigitsAux_d1 (fuel n : ℕ) (hn : n < 10) (hf : 1 ≤ fuel) :
    natDigitsAux fuel n = [digitChar n] := by
  cases fuel with
  | zero => omega
  | succ f => simp [natDigitsAux, hn]

/-- Two-digit rendering. -/
theorem natDigitsAux_d2 (fuel n : ℕ) (h10 : 10 ≤ n) (hn : n < 100) (hf : 2 ≤ fuel) :
    natDigitsAux fuel n = [digitChar (n / 10), digitChar (n % 10)] := by
  cases fuel with
  | zero => omega
  | succ f =>
      rw [natDigitsAux, if_neg (by omega), natDigitsAux_d1 f (n / 10) (by omega) (by omega)]
      rfl

/-- Three-digit rendering. -/
theorem natDigitsAux_d3 (fuel n : ℕ) (h100 : 100 ≤ n) (hn : n < 1000) (hf : 3 ≤ fuel) :
    natDigitsAux fuel n =
      [digitChar (n / 100), digitChar (n / 10 % 10), digitChar (n % 10)] := by
  cases fuel with
  | zero => omega
  | succ f =>
      rw [natDigitsAux, if_neg (by omega),
          natDigitsAux_d2 f (n / 10) (by omega) (by omega) (by omega)]
      rw [Nat.div_div_eq_div_mul]
      rfl

/-- Four-digit rendering. -/
theorem natDigitsAux_d4 (fuel n : ℕ) (h1000 : 1000 ≤ n) (hn : n < 10000) (hf : 4 ≤ fuel) :
    natDigitsAux fuel n =
      [digitChar (n / 1000), digitChar (n / 100 % 10), digitChar (n / 10 % 10),
       digitChar (n % 10)] := by
  cases fuel with
  | zero => omega
  | succ f =>
      rw [natDigitsAux, if_neg (by omega),
          natDigitsAux_d3 f (n / 10) (by omega) (by omega) (by omega)]
      rw [Nat.div_div_eq_div_mul, Nat.div_div_eq_div_mul]
      rfl

/-- `pad2` of a value below 100 is two digit characters. -/
theorem pad2_spec (n : ℕ) (h : n ≤ 99) :
    (pad2 n).data.length = 2 ∧ (pad2 n).data.all isDigitCh = true := by
  unfold pad2 natToStr
  by_cases hn : n < 10
  · rw [if_pos hn]
    rw [show (("0" ++ ⟨natDigitsAux (n + 1) n⟩ : String)).data =
        '0' :: natDigitsAux (n + 1) n from rfl]
    rw [natDigitsAux_d1 (n + 1) n hn (by omega)]
    exact ⟨rfl, by simp [List.all, isDigitCh_digitChar, isDigitCh_zero]⟩
  · rw [if_neg hn]
    show (natDigitsAux (n + 1) n).length = 2 ∧ (natDigitsAux (n + 1) n).all isDigitCh = true
    rw [natDigitsAux_d2 (n + 1) n (by omega) (by omega) (by omega)]
    exact ⟨rfl, by simp [List.all, isDigitCh_digitChar]⟩

/-- `pad4` of a value below 10000 is four digit characters. -/
theorem pad4_spec (n : ℕ) (h : n ≤ 9999) :
    (pad4 n).data.length = 4 ∧ (pad4 n).data.all isDigitCh = true := by
  unfold pad4 natToStr
  by_cases h1 : n < 10
  · rw [if_pos h1]
    rw [show (("000" ++ (⟨natDigitsAux (n + 1) n⟩ : String)).data) =
        '0' :: '0' :: '0' :: natDigitsAux (n + 1) n from rfl]
    rw [natDigitsAux_d1 (n + 1) n h1 (by omega)]
    exact ⟨rfl, by simp [List.all, isDigitCh_digitChar, isDigitCh_zero]⟩
  · rw [if_neg h1]
    by_cases h2 : n < 100
    · rw [if_pos h2]
      rw [show (("00" ++ (⟨natDigitsAux (n + 1) n⟩ : String)).data) =
          '0' :: '0' :: natDigitsAux (n + 1) n from rfl]
      rw [natDigitsAux_d2 (n + 1) n (by omega) h2 (by omega)]
      exact ⟨rfl, by simp [List.all, isDigitCh_digitChar, isDigitCh_zero]⟩
    · rw [if_neg h2]
      by_cases h3 : n < 1000
      · rw [if_pos h3]
        rw [show (("0" ++ (⟨natDigitsAux (n + 1) n⟩ : String)).data) =
            '0' :: natDigitsAux (n + 1) n from rfl]
        rw [natDigitsAux_d3 (n + 1) n (by omega) h3 (by omega)]
        exact ⟨rfl, by simp [List.all, isDigitCh_digitChar, isDigitCh_zero]⟩
      · rw [if_neg h3]
        show (natDigitsAux (n + 1) n).length = 4 ∧
          (natDigitsAux (n + 1) n).all isDigitCh = true
        rw [natDigitsAux_d4 (n + 1) n (by omega) (by omega) (by omega)]
        exact ⟨rfl, by simp [List.all, isDigitCh_digitChar]⟩

/-- `int()` succeeds on a non-empty digit string. -/
theorem pyInt_ok_digits (s : String) (h1 : s.data ≠ []) (h2 : s.data.all isDigitCh = true) :
    pyInt s = Except.ok (digitsToNat s.data) := by
  unfold pyInt
  rw [if_pos ⟨h1, h2⟩]

/-- The fixed-width slices of a formatted timestamp recover its fields. -/
theorem strftime_slices (dt : DateTime) (hy : dt.year ≤ 9999) (hmo : dt.month ≤ 99)
    (hd : dt.day ≤ 99) (hh : dt.hour ≤ 99) (hmi : dt.minute ≤ 99) :
    sliceStr (strftimeTs dt) 0 4 = pad4 dt.year ∧
    sliceStr (strftimeTs dt) 4 6 = pad2 dt.month ∧
    sliceStr (strftimeTs dt) 6 8 = pad2 dt.day ∧
    sliceStr (strftimeTs dt) 9 11 = pad2 dt.hour ∧
    sliceStr (strftimeTs dt) 11 13 = pad2 dt.minute := by
  obtain ⟨hA, -⟩ := pad4_spec dt.year hy
  obtain ⟨hB, -⟩ := pad2_spec dt.month hmo
  obtain ⟨hC, -⟩ := pad2_spec dt.day hd
  obtain ⟨hE, -⟩ := pad2_spec dt.hour hh
  obtain ⟨hF, -⟩ := pad2_spec dt.minute hmi
  have hdata : (strftimeTs dt).data =
      (pad4 dt.year).data ++ ((pad2 dt.month).data ++ ((pad2 dt.day).data ++
        ('-' :: ((pad2 dt.hour).data ++ ((pad2 dt.minute).data ++ ['0', '0']))))) := by
    simp only [strftimeTs, strData_append, List.append_assoc]
    rfl
  have hd4 : (strftimeTs dt).data.drop 4 =
      (pad2 dt.month).data ++ ((pad2 dt.day).data ++
        ('-' :: ((pad2 dt.hour).data ++ ((pad2 dt.minute).data ++ ['0', '0'])))) := by
    rw [hdata]
    exact List.drop_left' hA
  have hd6 : (strftimeTs dt).data.drop 6 =
      (pad2 dt.day).data ++ ('-' :: ((pad2 dt.hour).data ++
        ((pad2 dt.minute).data ++ ['0', '0']))) := by
    rw [show (6 : ℕ) = 4 + 2 from rfl, ← List.drop_drop, hd4]
    exact List.drop_left' hB
  have hd8 : (strftimeTs dt).data.drop 8 =
      '-' :: ((pad2 dt.hour).data ++ ((pad2 dt.minute).data ++ ['0', '0'])) := by
    rw [show (8 : ℕ) = 6 + 2 from rfl, ← List.drop_drop, hd6]
    exact List.drop_left' hC
  have hd9 : (strftimeTs dt).data.drop 9 =
      (pad2 dt.hour).data ++ ((pad2 dt.minute).data ++ ['0', '0']) := by
    rw [show (9 : ℕ) = 8 + 1 from rfl, ← List.drop_drop, hd8]
    rfl
  have hd11 : (strftimeTs dt).data.drop 11 = (pad2 dt.minute).data ++ ['0', '0'] := by
    rw [show (11 : ℕ) = 9 + 2 from rfl, ← List.drop_drop, hd9]
    exact List.drop_left' hE
  refine ⟨?_, ?_, ?_, ?_, ?_⟩
  · show (⟨((strftimeTs dt).data.drop 0).take 4⟩ : String) = pad4 dt.year
    rw [List.drop_zero, hdata, List.take_left' hA]
  · show (⟨((strftimeTs dt).data.drop 4).take 2⟩ : String) = pad2 dt.month
    rw [hd4, List.take_left' hB]
  · show (⟨((strftimeTs dt).data.drop 6).take 2⟩ : String) = pad2 dt.day
    rw [hd6, List.take_left' hC]
  · show (⟨((strftimeTs dt).data.drop 9).take 2⟩ : String) = pad2 dt.hour
    rw [hd9, List.take_left' hE]
  · show (⟨((strftimeTs dt).data.drop 11).take 2⟩ : String) = pad2 dt.minute
    rw [hd11, List.take_left' hF]

/-- `int()` succeeds on a padded 4-digit field. -/
theorem pyInt_pad4 (n : ℕ) (h : n ≤ 9999) :
    pyInt (pad4 n) = Except.ok (digitsToNat (pad4 n).data) := by
  obtain ⟨hl, ha⟩ := pad4_spec n h
  refine pyInt_ok_digits _ ?_ ha
  intro hnil
  rw [hnil] at hl
  simp at hl

/-- `int()` succeeds on a padded 2-digit field. -/
theorem pyInt_pad2 (n : ℕ) (h : n ≤ 99) :
    pyInt (pad2 n) = Except.ok (digitsToNat (pad2 n).data) := by
  obtain ⟨hl, ha⟩ := pad2_spec n h
  refine pyInt_ok_digits _ ?_ ha
  intro hnil
  rw [hnil] at hl
  simp at hl

/-- On a timestamp formatted from a valid datetime the generator never
raises. -/
theorem generate_ok_of_valid (env : GenEnv) (dt : DateTime) (hv : pyValidDate dt = true) :
    ∃ fc : FeatureCollection,
      generate_realistic_mrms_data env (strftimeTs dt) = Except.ok fc ∧
      fc.features = (genSystemsLoop env (strftimeTs dt)
        (env.msin ((((digitsToNat (pad2 dt.hour).data : ℚ)) +
          ((digitsToNat (pad2 dt.minute).data : ℚ)) / 60) * mathPi / 12)) base_systems 0).1 ∧
      fc.metadata.timestamp = strftimeTs dt ∧
      fc.metadata.totalPoints = fc.features.length := by
  simp only [pyValidDate, Bool.and_eq_true, decide_eq_true_eq] at hv
  obtain ⟨⟨⟨⟨⟨⟨⟨⟨-, hy⟩, -⟩, hmo⟩, -⟩, hd⟩, hh⟩, hmi⟩, -⟩ := hv
  obtain ⟨s1, s2, s3, s4, s5⟩ :=
    strftime_slices dt hy (by omega) (by omega) (by omega) (by omega)
  unfold generate_realistic_mrms_data
  rw [s1, s2, s3, s4, s5, pyInt_pad4 _ hy, pyInt_pad2 _ (by omega), pyInt_pad2 _ (by omega),
      pyInt_pad2 _ (by omega), pyInt_pad2 _ (by omega)]
  exact ⟨_, rfl, rfl, rfl, rfl⟩

/-- With real trigonometry (range `[-1, 1]`) and real `random()` draws
(range `[0, 1)`), every point of the Midwest system lands inside the CONUS
box, so `genPoint` always emits it. -/
theorem genPoint_midwest_some (env : GenEnv) (cI : ℚ) (ts : String) (i : ℕ)
    (hsin : ∀ x, -1 ≤ env.msin x ∧ env.msin x ≤ 1)
    (hcos : ∀ x, -1 ≤ env.mcos x ∧ env.mcos x ≤ 1)
    (hrand : ∀ j, 0 ≤ env.rand j ∧ env.rand j < 1) :
    ∃ (f : Feature) (j2 : ℕ),
      genPoint env ⟨39, -95, 35, 15, 4, "convective"⟩ cI ts i = (some f, j2) := by
  simp only [genPoint]
  obtain ⟨hu0, hu1⟩ := hrand (i + 1)
  obtain ⟨hc0, hc1⟩ := hcos (pyUniform 0 (2 * mathPi) (env.rand i))
  obtain ⟨hs0, hs1⟩ := hsin (pyUniform 0 (2 * mathPi) (env.rand i))
  set u := env.rand (i + 1) with hu
  set c := env.mcos (pyUniform 0 (2 * mathPi) (env.rand i)) with hc
  set s := env.msin (pyUniform 0 (2 * mathPi) (env.rand i)) with hs
  have hd0 : ((1 : ℚ) / 10) ≤ pyUniform (1 / 10) 4 u := by
    unfold pyUniform
    nlinarith
  have hd1 : pyUniform (1 / 10) 4 u ≤ 4 := by
    unfold pyUniform
    nlinarith
  set d := pyUniform (1 / 10) 4 u with hdd
  have hcond : (25 : ℚ) ≤ 39 + d * c ∧ (39 : ℚ) + d * c ≤ 49 ∧
      (-125 : ℚ) ≤ -95 + d * s ∧ (-95 : ℚ) + d * s ≤ -67 := by
    have h1 : -4 ≤ d * c := by nlinarith
    have h2 : d * c ≤ 4 := by nlinarith
    have h3 : -4 ≤ d * s := by nlinarith
    have h4 : d * s ≤ 4 := by nlinarith
    norm_num
    constructor
    · linarith
    constructor
    · linarith
    constructor
    · linarith
    · linarith
  rw [if_pos hcond]
  exact ⟨_, _, rfl⟩

/-- Under the same conditions a full generator run emits at least one
feature. -/
theorem genSystemsLoop_base_ne_nil (env : GenEnv) (ts : String) (dayFactor : ℚ) (i : ℕ)
    (hsin : ∀ x, -1 ≤ env.msin x ∧ env.msin x ≤ 1)
    (hcos : ∀ x, -1 ≤ env.mcos x ∧ env.mcos x ≤ 1)
    (hrand : ∀ j, 0 ≤ env.rand j ∧ env.rand j < 1) :
    (genSystemsLoop env ts dayFactor base_systems i).1 ≠ [] := by
  unfold base_systems
  rw [genSystemsLoop]
  dsimp only
  obtain ⟨f, j2, hf⟩ := genPoint_midwest_some env
    (max 25 (min 60 (35 + 15 * dayFactor))) ts i hsin hcos hrand
  rw [show points_density "convective" = 44 + 1 from rfl, genPointsLoop, hf]
  dsimp only
  rcases genPointsLoop env ⟨39, -95, 35, 15, 4, "convective"⟩
      (max 25 (min 60 (35 + 15 * dayFactor))) ts 44 j2 with ⟨rest, i3⟩
  dsimp only
  rcases genSystemsLoop env ts dayFactor _ i3 with ⟨fs2, i4⟩
  simp

/-- When the cache is stale or empty the handler runs the `try` block. -/
theorem get_radar_data_of_stale (w : HandlerWorld) (st : ServiceState)
    (h : cacheFresh w st = false) : get_radar_data w st = get_radar_data_stale w st := by
  obtain ⟨cd, lft⟩ := st
  cases cd with
  | none => rfl
  | some b =>
      cases lft with
      | none => rfl
      | some t =>
          simp only [cacheFresh, decide_eq_false_iff_not] at h
          unfold get_radar_data
          dsimp only
          rw [if_neg h]

/-- C2: when the prober returns NotFound and the cache is stale or empty,
the handler formats a timestamp from the current instant, calls the
generator directly, caches the wrapped result, and returns a success
response whose FeatureCollection is non-empty — never an error for this
case alone (given Python datetime field invariants and real trigonometry
and draw ranges). -/
theorem C2_notfound_fallback (w : HandlerWorld) (st : ServiceState)
    (hstale : cacheFresh w st = false)
    (hprobe : get_latest_data_url w.probe w.proberNow = none)
    (hdate : pyValidDate w.fallbackNow = true)
    (hsin : ∀ x, -1 ≤ w.env.msin x ∧ w.env.msin x ≤ 1)
    (hcos : ∀ x, -1 ≤ w.env.mcos x ∧ w.env.mcos x ≤ 1)
    (hrand : ∀ j, 0 ≤ w.env.rand j ∧ w.env.rand j < 1) :
    ∃ body : OkBody,
      get_radar_data w st =
        ⟨RadarResponse.ok body, ⟨some body, some (w.clock 2).seconds⟩, true, false⟩ ∧
      body.success = true ∧
      body.timestamp = (w.clock 1).iso ∧
      generate_realistic_mrms_data w.env (strftimeTs w.fallbackNow) = Except.ok body.data ∧
      body.data.metadata.timestamp = strftimeTs w.fallbackNow ∧
      body.data.features ≠ [] := by
  obtain ⟨fc, hgen, hfeat, hts, -⟩ := generate_ok_of_valid w.env w.fallbackNow hdate
  rw [get_radar_data_of_stale w st hstale]
  unfold get_radar_data_stale
  rw [hprobe]
  unfold fallbackBranch
  dsimp only
  rw [hgen]
  dsimp only
  refine ⟨_, rfl, rfl, rfl, rfl, hts, ?_⟩
  rw [hfeat]
  exact genSystemsLoop_base_ne_nil w.env (strftimeTs w.fallbackNow) _ 0 hsin hcos hrand

/-- Witness for C2 in the all-404 world with empty cache. -/
theorem C2_notfound_fallback_witness :
    ∃ body : OkBody,
      get_radar_data wFallback ⟨none, none⟩ =
        ⟨RadarResponse.ok body, ⟨some body, some ((wFallback.clock 2).seconds)⟩, true, false⟩ ∧
      body.success = true ∧
      body.timestamp = (wFallback.clock 1).iso ∧
      generate_realistic_mrms_data wFallback.env (strftimeTs wFallback.fallbackNow) =
        Except.ok body.data ∧
      body.data.metadata.timestamp = strftimeTs wFallback.fallbackNow ∧
      body.data.features ≠ [] :=
  C2_notfound_fallback wFallback ⟨none, none⟩ rfl (by with_unfolding_all decide)
    (by with_unfolding_all decide)
    (by intro x; refine ⟨by norm_num [wFallback, envZero], by norm_num [wFallback, envZero]⟩)
    (by intro x; refine ⟨by norm_num [wFallback, envZero], by norm_num [wFallback, envZero]⟩)
    (by intro j; refine ⟨by norm_num [wFallback, envZero], by norm_num [wFallback, envZero]⟩)

/-! ### C3 and C4: cache behaviour of the request handler -/

/-- The fallback branch either caches and returns a success body, or returns
the error response with the cache untouched. -/
theorem fallbackBranch_cases (w : HandlerWorld) (st : ServiceState) :
    (∃ body, fallbackBranch w st =
        ⟨RadarResponse.ok body, ⟨some body, some (w.clock 2).seconds⟩, true, false⟩) ∨
    (∃ e, fallbackBranch w st = ⟨RadarResponse.err e ((w.clock 3).iso), st, true, false⟩) := by
  unfold fallbackBranch
  dsimp only
  cases generate_realistic_mrms_data w.env (strftimeTs w.fallbackNow) with
  | ok fd => exact Or.inl ⟨_, rfl⟩
  | error e => exact Or.inr ⟨e, rfl⟩

/-- The `try` block either caches and returns a success body, or returns the
error response with the cache untouched; the prober always runs first. -/
theorem stale_cases (w : HandlerWorld) (st : ServiceState) :
    (∃ body fb, get_radar_data_stale w st =
        ⟨RadarResponse.ok body, ⟨some body, some (w.clock 2).seconds⟩, true, fb⟩) ∨
    (∃ e fb, get_radar_data_stale w st =
        ⟨RadarResponse.err e ((w.clock 3).iso), st, true, fb⟩) := by
  unfold get_radar_data_stale
  cases get_latest_data_url w.probe w.proberNow with
  | none =>
      dsimp only
      rcases fallbackBranch_cases w st with ⟨b, hb⟩ | ⟨e, he⟩
      · exact Or.inl ⟨b, false, hb⟩
      · exact Or.inr ⟨e, false, he⟩
  | some p =>
      obtain ⟨url, ts⟩ := p
      dsimp only
      split
      · cases hdl : download_and_process_data w.env url with
        | ok pd =>
            simp only [fcTruthy, if_true]
            exact Or.inl ⟨_, true, rfl⟩
        | error e => exact Or.inr ⟨e, true, rfl⟩
      · rcases fallbackBranch_cases w st with ⟨b, hb⟩ | ⟨e, he⟩
        · exact Or.inl ⟨b, false, hb⟩
        · exact Or.inr ⟨e, false, he⟩

/-- The handler either serves a fresh cache hit with no side effects, or
runs the `try` block. -/
theorem radar_cases (w : HandlerWorld) (st : ServiceState) :
    (∃ body t, st.cached_data = some body ∧ st.last_fetch_time = some t ∧
      ((w.clock 0).seconds - t < CACHE_DURATION) ∧
      get_radar_data w st = ⟨RadarResponse.ok body, st, false, false⟩) ∨
    get_radar_data w st = get_radar_data_stale w st := by
  obtain ⟨cd, lft⟩ := st
  cases cd with
  | none => exact Or.inr rfl
  | some b =>
      cases lft with
      | none => exact Or.inr rfl
      | some t =>
          unfold get_radar_data
          dsimp only
          split
          · rename_i hfresh
            exact Or.inl ⟨b, t, rfl, rfl, hfresh, rfl⟩
          · exact Or.inr rfl

/-- C4: whenever the handler answers with the error shape
`{success: false, error, timestamp}`, the status is 500, the timestamp is
the error-time `datetime.now()`, and the module cache state is exactly what
it was before the request, so a stale cache entry survives. -/
theorem C4_error_preserves_cache (w : HandlerWorld) (st : ServiceState) (e ts2 : String)
    (h : (get_radar_data w st).resp = RadarResponse.err e ts2) :
    (get_radar_data w st).state = st ∧
    respStatus (get_radar_data w st).resp = 500 ∧
    respSuccess (get_radar_data w st).resp = false ∧
    ts2 = (w.clock 3).iso := by
  rcases radar_cases w st with ⟨b, t, -, -, -, heq⟩ | heq
  · rw [heq] at h
    simp at h
  · rw [heq] at h ⊢
    rcases stale_cases w st with ⟨b, fb, hs⟩ | ⟨e2, fb, hs⟩
    · rw [hs] at h
      simp at h
    · rw [hs] at h ⊢
      dsimp only at h ⊢
      simp only [RadarResponse.err.injEq] at h
      obtain ⟨he, hts⟩ := h
      exact ⟨rfl, rfl, rfl, hts.symm⟩

/-- A successful response body is exactly what the cache now holds. -/
theorem resp_ok_cached (w : HandlerWorld) (st : ServiceState) (b : OkBody)
    (h : (get_radar_data w st).resp = RadarResponse.ok b) :
    (get_radar_data w st).state.cached_data = some b := by
  rcases radar_cases w st with ⟨b2, t, hcd, -, -, heq⟩ | heq
  · rw [heq] at h ⊢
    dsimp only at h ⊢
    simp only [RadarResponse.ok.injEq] at h
    rw [hcd, h]
  · rw [heq] at h ⊢
    rcases stale_cases w st with ⟨b2, fb, hs⟩ | ⟨e2, fb, hs⟩
    · rw [hs] at h ⊢
      dsimp only at h ⊢
      simp only [RadarResponse.ok.injEq] at h
      rw [h]
    · rw [hs] at h
      simp at h

/-- C3: if a call returns a success body and a second call arrives while the
cache entry is strictly younger than `CACHE_DURATION`, the second call
returns the first call's payload verbatim (timestamp field included), with
no probe, no fetch, and no cache write. -/
theorem C3_cache_fresh_idempotent (w₁ w₂ : HandlerWorld) (st : ServiceState) (b : OkBody)
    (t : ℚ)
    (h1 : (get_radar_data w₁ st).resp = RadarResponse.ok b)
    (h2 : (get_radar_data w₁ st).state.last_fetch_time = some t)
    (h3 : (w₂.clock 0).seconds - t < CACHE_DURATION) :
    get_radar_data w₂ (get_radar_data w₁ st).state =
      ⟨RadarResponse.ok b, (get_radar_data w₁ st).state, false, false⟩ := by
  have hcd := resp_ok_cached w₁ st b h1
  rcases hst : (get_radar_data w₁ st).state with ⟨cd, lft⟩
  rw [hst] at hcd h2
  dsimp only at hcd h2
  subst hcd
  subst h2
  unfold get_radar_data
  dsimp only
  rw [if_pos h3]

set_option maxRecDepth 1000000 in
/-- Witness for C4: the NCEP-only world drives the decode failure. -/
theorem C4_error_preserves_cache_witness :
    (get_radar_data wErr ⟨none, none⟩).state = ⟨none, none⟩ ∧
    respStatus (get_radar_data wErr ⟨none, none⟩).resp = 500 ∧
    respSuccess (get_radar_data wErr ⟨none, none⟩).resp = false ∧
    "T3" = (wErr.clock 3).iso :=
  C4_error_preserves_cache wErr ⟨none, none⟩
    "invalid literal for int() with base 10: MRMS" "T3" (by with_unfolding_all rfl)

set_option maxRecDepth 1000000 in
/-- Witness for C3 on a fresh cache at seconds 10 and 50. -/
theorem C3_cache_fresh_idempotent_witness :
    get_radar_data wFresh2 (get_radar_data wFresh1 stFresh).state =
      ⟨RadarResponse.ok tinyBody, (get_radar_data wFresh1 stFresh).state, false, false⟩ :=
  C3_cache_fresh_idempotent wFresh1 wFresh2 stFresh tinyBody 0
    (by with_unfolding_all rfl) (by with_unfolding_all rfl)
    (by norm_num [wFresh2, CACHE_DURATION])
